import Mathlib

/-!
Verification of the machID library (LyrinoxTechnologies/machID, `machid.go`).

The Go source is shallowly embedded: file-system reads, the external
`dmidecode` command, randomness, the clock and the cache store are supplied
by an explicit environment (`Env`); the mutable on-disk state touched by a
call (the two fallback token files, the random counter, the saved cache
record) is threaded as an explicit `FsState`; warnings emitted through the
configured logger are collected in a list.  The SHA-256 primitive, which the
Go code takes from `crypto/sha256`, is implemented concretely over `Nat`
(words are reduced modulo 2^32 where the hardware would overflow).
-/

namespace Machid

/-! ## SHA-256 over byte lists (model of the external `crypto/sha256`) -/

/-- Reduce to a 32-bit word, the modular arithmetic of the hash core. -/
def w32 (x : Nat) : Nat := x % 4294967296

/-- Right rotation of a 32-bit word by `n` places (for `x < 2^32`). -/
def rotr (n x : Nat) : Nat := x / 2 ^ n + x % 2 ^ n * 2 ^ (32 - n)

/-- Bitwise complement of a 32-bit word. -/
def not32 (x : Nat) : Nat := x ^^^ 4294967295

/-- SHA-256 choice function. -/
def ch (x y z : Nat) : Nat := (x &&& y) ^^^ (not32 x &&& z)

/-- SHA-256 majority function. -/
def maj (x y z : Nat) : Nat := (x &&& y) ^^^ (x &&& z) ^^^ (y &&& z)

/-- SHA-256 Σ₀. -/
def bigSigma0 (x : Nat) : Nat := rotr 2 x ^^^ rotr 13 x ^^^ rotr 22 x

/-- SHA-256 Σ₁. -/
def bigSigma1 (x : Nat) : Nat := rotr 6 x ^^^ rotr 11 x ^^^ rotr 25 x

/-- SHA-256 σ₀. -/
def smallSigma0 (x : Nat) : Nat := rotr 7 x ^^^ rotr 18 x ^^^ (x >>> 3)

/-- SHA-256 σ₁. -/
def smallSigma1 (x : Nat) : Nat := rotr 17 x ^^^ rotr 19 x ^^^ (x >>> 10)

/-- The 64 SHA-256 round constants (FIPS 180-4, written in decimal;
the test-vector theorems below validate the table). -/
def kConstants : List Nat :=
  [1116352408, 1899447441, 3049323471, 3921009573, 961987163,
   1508970993, 2453635748, 2870763221, 3624381080, 310598401,
   607225278, 1426881987, 1925078388, 2162078206, 2614888103,
   3248222580, 3835390401, 4022224774, 264347078, 604807628,
   770255983, 1249150122, 1555081692, 1996064986, 2554220882,
   2821834349, 2952996808, 3210313671, 3336571891, 3584528711,
   113926993, 338241895, 666307205, 773529912, 1294757372,
   1396182291, 1695183700, 1986661051, 2177026350, 2456956037,
   2730485921, 2820302411, 3259730800, 3345764771, 3516065817,
   3600352804, 4094571909, 275423344, 430227734, 506948616,
   659060556, 883997877, 958139571, 1322822218, 1537002063,
   1747873779, 1955562222, 2024104815, 2227730452, 2361852424,
   2428436474, 2756734187, 3204031479, 3329325298]

/-- The eight SHA-256 working registers. -/
structure Hash8 where
  a : Nat
  b : Nat
  c : Nat
  d : Nat
  e : Nat
  f : Nat
  g : Nat
  h : Nat
deriving DecidableEq

/-- The SHA-256 initial hash value (FIPS 180-4, in decimal). -/
def initHash : Hash8 :=
  ⟨1779033703, 3144134277, 1013904242, 2773480762,
   1359893119, 2600822924, 528734635, 1541459225⟩

/-- One SHA-256 round; `kw` is the round constant plus the schedule word. -/
def sha256Round (s : Hash8) (kw : Nat) : Hash8 :=
  let t1 := w32 (s.h + bigSigma1 s.e + ch s.e s.f s.g + kw)
  let t2 := w32 (bigSigma0 s.a + maj s.a s.b s.c)
  ⟨w32 (t1 + t2), s.a, s.b, s.c, w32 (s.d + t1), s.e, s.f, s.g⟩

/-- Byte `i` of a block (0 when out of range). -/
def byteAt (l : List Nat) (i : Nat) : Nat := l.getD i 0

/-- The 16 big-endian 32-bit words of a 64-byte block. -/
def toWords (block : List Nat) : List Nat :=
  (List.range 16).map fun i =>
    byteAt block (4 * i) * 16777216 + byteAt block (4 * i + 1) * 65536 +
      byteAt block (4 * i + 2) * 256 + byteAt block (4 * i + 3)

/-- Extend the 16 block words to the 64-entry message schedule. -/
def extendSchedule (ws : List Nat) : List Nat :=
  (List.range 48).foldl
    (fun acc _ =>
      acc ++ [w32 (smallSigma1 (acc.getD (acc.length - 2) 0) + acc.getD (acc.length - 7) 0 +
        smallSigma0 (acc.getD (acc.length - 15) 0) + acc.getD (acc.length - 16) 0)])
    ws

/-- Compress one 64-byte block into the running hash state. -/
def compressBlock (s : Hash8) (block : List Nat) : Hash8 :=
  let ws := extendSchedule (toWords block)
  let t := (List.zipWith (fun ki wi => w32 (ki + wi)) kConstants ws).foldl sha256Round s
  ⟨w32 (s.a + t.a), w32 (s.b + t.b), w32 (s.c + t.c), w32 (s.d + t.d),
   w32 (s.e + t.e), w32 (s.f + t.f), w32 (s.g + t.g), w32 (s.h + t.h)⟩

/-- Big-endian 64-bit encoding of a bit length. -/
def be64 (n : Nat) : List Nat :=
  (List.range 8).map fun i => n / 2 ^ (8 * (7 - i)) % 256

/-- SHA-256 padding: `0x80`, zeros to 56 mod 64, then the 64-bit bit length. -/
def padMessage (msg : List Nat) : List Nat :=
  let len := msg.length
  let zeros := (64 - (len + 9) % 64) % 64
  msg ++ 128 :: List.replicate zeros 0 ++ be64 (8 * len)

/-- Split a byte list into 64-byte blocks (structural recursion on a fuel
bound so that the kernel can evaluate it; `fuel = msg.length` always
suffices since every step consumes at least one byte). -/
def toBlocksFuel : Nat → List Nat → List (List Nat)
  | 0, _ => []
  | _, [] => []
  | fuel + 1, msg => msg.take 64 :: toBlocksFuel fuel (msg.drop 64)

/-- Split a byte list into 64-byte blocks. -/
def toBlocks (msg : List Nat) : List (List Nat) := toBlocksFuel msg.length msg

/-- The SHA-256 digest of a byte list, as the eight final hash words. -/
def sha256Words (msg : List Nat) : Hash8 :=
  (toBlocks (padMessage msg)).foldl compressBlock initHash

/-- Lower-case hex digit for `n < 16`. -/
def hexDigitChar (n : Nat) : Char :=
  if n < 10 then Char.ofNat (48 + n) else Char.ofNat (87 + n)

/-- The 8 hex characters of a 32-bit word, most significant first. -/
def hexDigits8 (w : Nat) : List Char :=
  (List.range 8).map fun i => hexDigitChar (w / 16 ^ (7 - i) % 16)

/-- The 64-character lower-case hex rendering of a SHA-256 digest,
mirroring Go's `hex.EncodeToString(hasher.Sum(nil))`. -/
def sha256Hex (msg : List Nat) : String :=
  let s := sha256Words msg
  String.mk (hexDigits8 s.a ++ hexDigits8 s.b ++ hexDigits8 s.c ++ hexDigits8 s.d ++
    hexDigits8 s.e ++ hexDigits8 s.f ++ hexDigits8 s.g ++ hexDigits8 s.h)

/-- UTF-8 bytes of one character, as `Nat`s. -/
def charBytes (c : Char) : List Nat := (String.utf8EncodeChar c).map UInt8.toNat

/-- UTF-8 bytes of a string (what Go's `[]byte(s)` feeds the hasher). -/
def strBytes (s : String) : List Nat := s.data.flatMap charBytes

/-- `hashData` (machid.go lines 304-318): writes each input string to one
SHA-256 hasher in order and hex-encodes the 256-bit digest.  The in-place
scrubbing of the inputs has no observable effect on the returned value and
is not represented. -/
def hashData (data : List String) : String :=
  sha256Hex (data.flatMap strBytes)

/-! ## Data model -/

deriving instance DecidableEq for Except

/-- The typed error values of machid.go (lines 24-42). -/
inductive MachErr where
  | notRoot
  | emptySalt
  | noHardwareID
  | dmidecodeNotFound
  | strictModeNoHardwareID
  | fallbackFileCreation
deriving DecidableEq

/-- `CachedMachineIDs` (machid.go lines 526-532). -/
structure CachedMachineIDs where
  reMachID : String
  eMachID : String
  salt : String
  actionCount : Int
  createdAt : Int
deriving DecidableEq

/-- The environment a single library call runs in: the read-only outside
world (sysfs contents, presence and output of `dmidecode`, the strict-mode
flag snapshot, success of directory/file creation, the random source, the
cache record loaded by `LoadCachedIDs`, the outcome of `SaveCachedIDs`, and
the clock).  `sysfs path = none` models an unreadable file;
`dmidecodeOut kw = none` models `cmd.Output()` failing;
`randHex n` is the `n`-th string produced by `generateRandomHex`
(`none` models a failure of the random source); `loadCache = none` models
`LoadCachedIDs` returning an error; `saveErr = some msg` models
`SaveCachedIDs` failing with message `msg`. -/
structure Env where
  euid : Nat
  sysfs : String → Option String
  dmidecodePresent : Bool
  dmidecodeOut : String → Option String
  strictMode : Bool
  mkdirOk : Bool
  randHex : Nat → Option String
  writeOk : String → Bool
  loadCache : Option CachedMachineIDs
  saveErr : Option String
  nowUnix : Int
  nowUnixNano : Int

/-- The mutable on-disk state a call can change: the contents of the two
fallback token files (`none` = absent), how many random values have been
consumed, and the cache record last written by `SaveCachedIDs`. -/
structure FsState where
  serialFile : Option String
  uuidFile : Option String
  randCtr : Nat
  savedCache : Option CachedMachineIDs
deriving DecidableEq

/-- Model of Go's `strings.TrimSpace` (ASCII whitespace plus U+0085 and
U+00A0), written with structural list recursion so the kernel can evaluate
it. -/
def goIsSpace (c : Char) : Bool :=
  c.toNat == 32 || c.toNat == 9 || c.toNat == 10 || c.toNat == 11 ||
    c.toNat == 12 || c.toNat == 13 || c.toNat == 133 || c.toNat == 160

/-- Trim leading and trailing whitespace. -/
def trimSpace (s : String) : String :=
  String.mk ((s.data.dropWhile goIsSpace).reverse.dropWhile goIsSpace).reverse

/-- The placeholder filter shared by `readSysfsFile` (machid.go line 143)
and `getDmidecodeValue` (line 166): known placeholder contents are treated
as empty. -/
def filterContent (content : String) : String :=
  if content = "" ∨ content = "None" ∨ content = "Not Specified" ∨
      content = "To Be Filled By O.E.M." then "" else content

/-- The sysfs candidate paths (machid.go lines 72-82). -/
def productSerialPath : String := "/sys/class/dmi/id/product_serial"

/-- sysfs chassis serial path. -/
def chassisSerialPath : String := "/sys/class/dmi/id/chassis_serial"

/-- sysfs board serial path. -/
def boardSerialPath : String := "/sys/class/dmi/id/board_serial"

/-- sysfs product UUID path. -/
def productUUIDPath : String := "/sys/class/dmi/id/product_uuid"

/-- The fallback directory (machid.go line 56). -/
def fallbackDir : String := "/etc/.machid"

/-- Full path of the fallback serial token file. -/
def fallbackSerialPath : String := "/etc/.machid/.mserial"

/-- Full path of the fallback UUID token file. -/
def fallbackUUIDPath : String := "/etc/.machid/.muuid"

/-! ## Readers (machid.go lines 134-170) -/

/-- `readSysfsFile`: read a sysfs file, trim it, filter placeholders;
any read error yields the empty string. -/
def readSysfsFile (env : Env) (path : String) : String :=
  match env.sysfs path with
  | none => ""
  | some data => filterContent (trimSpace data)

/-- `getDmidecodeValue`: `("", ErrDmidecodeNotFound)` when the binary is
absent; `("", nil)` when the command runs but fails; otherwise the trimmed,
placeholder-filtered output with a nil error. -/
def getDmidecodeValue (env : Env) (keyword : String) : String × Option MachErr :=
  if env.dmidecodePresent then
    match env.dmidecodeOut keyword with
    | none => ("", none)
    | some output => (filterContent (trimSpace output), none)
  else ("", some .dmidecodeNotFound)

/-! ## Persistent fallback provisioner (machid.go lines 181-230) -/

/-- The two fallback token files. -/
inductive FbFile where
  | serialF
  | uuidF
deriving DecidableEq

/-- The path of a fallback token file. -/
def fbPath : FbFile → String
  | .serialF => fallbackSerialPath
  | .uuidF => fallbackUUIDPath

/-- Read a fallback token file from the state. -/
def readFb (fs : FsState) : FbFile → Option String
  | .serialF => fs.serialFile
  | .uuidF => fs.uuidFile

/-- Write a fallback token file into the state. -/
def writeFb (fs : FsState) (f : FbFile) (v : String) : FsState :=
  match f with
  | .serialF => { fs with serialFile := some v }
  | .uuidF => { fs with uuidFile := some v }

/-- The creation half of `readOrCreateFallbackFile` (machid.go lines
218-229): draw the next random hex value, write it with mode 0600, return
it; either step failing yields `ErrFallbackFileCreation`. -/
def createFallbackFile (env : Env) (fs : FsState) (f : FbFile) :
    Except MachErr String × FsState :=
  match env.randHex fs.randCtr with
  | none => (.error .fallbackFileCreation, { fs with randCtr := fs.randCtr + 1 })
  | some randomData =>
      if env.writeOk (fbPath f) then
        (.ok randomData, { writeFb fs f randomData with randCtr := fs.randCtr + 1 })
      else (.error .fallbackFileCreation, { fs with randCtr := fs.randCtr + 1 })

/-- `readOrCreateFallbackFile` (machid.go lines 208-230): if the file reads
and its trimmed content is non-empty, return that content unchanged;
otherwise create it afresh. -/
def readOrCreateFallbackFile (env : Env) (fs : FsState) (f : FbFile) :
    Except MachErr String × FsState :=
  match readFb fs f with
  | some data =>
      if trimSpace data ≠ "" then (.ok (trimSpace data), fs)
      else createFallbackFile env fs f
  | none => createFallbackFile env fs f

/-- `ensureFallbackFiles` (machid.go lines 183-205): make the directory,
then read-or-create the serial token and the uuid token in that order. -/
def ensureFallbackFiles (env : Env) (fs : FsState) :
    Except MachErr (String × String) × FsState :=
  if env.mkdirOk then
    match readOrCreateFallbackFile env fs .serialF with
    | (.error e, fs1) => (.error e, fs1)
    | (.ok serial, fs1) =>
        match readOrCreateFallbackFile env fs1 .uuidF with
        | (.error e, fs2) => (.error e, fs2)
        | (.ok uuid, fs2) => (.ok (serial, uuid), fs2)
  else (.error .fallbackFileCreation, fs)

/-! ## Resolver (machid.go lines 232-300) -/

/-- The result triple of `getHardwareIdentifiers`. -/
structure HWIds where
  serial : String
  uuid : String
  usedFallback : Bool
deriving DecidableEq

/-- The sysfs serial chain: product serial, then chassis, then board
(machid.go lines 237-243). -/
def sysfsSerial (env : Env) : String :=
  let s := readSysfsFile env productSerialPath
  let s := if s = "" then readSysfsFile env chassisSerialPath else s
  if s = "" then readSysfsFile env boardSerialPath else s

/-- The sysfs uuid read (machid.go line 246). -/
def sysfsUuid (env : Env) : String := readSysfsFile env productUUIDPath

/-- The chassis/baseboard dmidecode serial aliases, errors discarded
(machid.go lines 261-266). -/
def dmidecodeSerialRest (env : Env) (s : String) : String :=
  let s := if s = "" then (getDmidecodeValue env "chassis-serial-number").1 else s
  if s = "" then (getDmidecodeValue env "baseboard-serial-number").1 else s

/-- The dmidecode serial chain (machid.go lines 256-267): the first
lookup's error aborts unless it is exactly `ErrDmidecodeNotFound`. -/
def dmidecodeSerial (env : Env) : Except MachErr String :=
  let r := getDmidecodeValue env "system-serial-number"
  match r.2 with
  | some e =>
      if e = MachErr.dmidecodeNotFound then .ok (dmidecodeSerialRest env r.1)
      else .error e
  | none => .ok (dmidecodeSerialRest env r.1)

/-- The serial value after both channels: sysfs first, dmidecode only when
sysfs gave nothing. -/
def resolvedSerial (env : Env) : Except MachErr String :=
  if sysfsSerial env = "" then dmidecodeSerial env else .ok (sysfsSerial env)

/-- The uuid value after both channels (machid.go lines 269-272): the
dmidecode error is ignored. -/
def resolvedUuid (env : Env) : String :=
  if sysfsUuid env = "" then (getDmidecodeValue env "system-uuid").1 else sysfsUuid env

/-- The three degraded-mode warnings (machid.go lines 289-291). -/
def fallbackWarnings : List String :=
  ["WARNING: machid - BIOS is not providing the system variables (serial/UUID) needed to generate hardware-based machine IDs.",
   "WARNING: machid - Falling back to filesystem-based machine IDs stored in /etc/.machid",
   "WARNING: machid - These IDs will persist across reboots but are NOT tied to hardware."]

/-- `getHardwareIdentifiers` (machid.go lines 235-300).  The Go locals
`serial` and `uuid` before the dmidecode tier are `sysfsSerial env` and
`sysfsUuid env`; their values after it are `resolvedSerial env` and
`resolvedUuid env`. -/
def getHardwareIdentifiers (env : Env) (fs : FsState) :
    Except MachErr HWIds × FsState × List String :=
  if sysfsSerial env ≠ "" ∧ sysfsUuid env ≠ "" then
    (.ok ⟨sysfsSerial env, sysfsUuid env, false⟩, fs, [])
  else
    match resolvedSerial env with
    | .error e => (.error e, fs, [])
    | .ok serial2 =>
        if serial2 ≠ "" ∨ resolvedUuid env ≠ "" then
          (.ok ⟨serial2, resolvedUuid env, false⟩, fs, [])
        else if env.strictMode then (.error .strictModeNoHardwareID, fs, [])
        else
          match ensureFallbackFiles env fs with
          | (.error e, fs1) => (.error e, fs1, fallbackWarnings)
          | (.ok (s, u), fs1) => (.ok ⟨s, u, true⟩, fs1, fallbackWarnings)

/-! ## Generators (machid.go lines 126-132, 344-443) -/

/-- `checkRoot` (machid.go lines 127-132). -/
def checkRoot (env : Env) : Option MachErr :=
  if env.euid ≠ 0 then some .notRoot else none

/-- `GenerateEMachID` (machid.go lines 344-359): reject an empty salt,
otherwise hash the nanosecond timestamp string with the salt. -/
def GenerateEMachID (env : Env) (salt : String) : Except MachErr String :=
  if salt = "" then .error .emptySalt
  else .ok (hashData [toString env.nowUnixNano, salt])

/-- `GenerateReMachID` (machid.go lines 383-406). -/
def GenerateReMachID (env : Env) (fs : FsState) (salt : String) :
    Except MachErr String × FsState × List String :=
  match checkRoot env with
  | some e => (.error e, fs, [])
  | none =>
      match getHardwareIdentifiers env fs with
      | (.error e, fs1, w) => (.error e, fs1, w)
      | (.ok ids, fs1, w) =>
          let remachid := if salt ≠ "" then hashData [ids.serial, ids.uuid, salt]
            else hashData [ids.serial, ids.uuid]
          (.ok remachid, fs1, w)

/-- `GenerateReMachIDWithInfo` (machid.go lines 421-443). -/
def GenerateReMachIDWithInfo (env : Env) (fs : FsState) (salt : String) :
    Except MachErr (String × Bool) × FsState × List String :=
  match checkRoot env with
  | some e => (.error e, fs, [])
  | none =>
      match getHardwareIdentifiers env fs with
      | (.error e, fs1, w) => (.error e, fs1, w)
      | (.ok ids, fs1, w) =>
          let remachid := if salt ≠ "" then hashData [ids.serial, ids.uuid, salt]
            else hashData [ids.serial, ids.uuid]
          (.ok (remachid, ids.usedFallback), fs1, w)

/-! ## Caching layer (machid.go lines 569-715) -/

/-- `SaveCachedIDs` (machid.go lines 585-615): on success the record is
stored; on failure nothing is written and the error message surfaces. -/
def saveCachedIDs (env : Env) (fs : FsState) (cache : CachedMachineIDs) :
    Option String × FsState :=
  match env.saveErr with
  | none => (none, { fs with savedCache := some cache })
  | some msg => (some msg, fs)

/-- The salt-mismatch warning text (machid.go line 645). -/
def saltMismatchWarning : String :=
  "WARNING: machid - Salt mismatch in cache, regenerating reMachID"

/-- The reMachID cache-failure warning text (machid.go line 668). -/
def cacheReWarning (msg : String) : String :=
  "WARNING: machid - Failed to cache reMachID: " ++ msg

/-- The eMachID cache-failure warning text (machid.go line 711). -/
def cacheEWarning (msg : String) : String :=
  "WARNING: machid - Failed to cache eMachID: " ++ msg

/-- The regeneration tail of `GetOrGenerateReMachID` (machid.go lines
648-671): generate under root, build the new record — preserving `EMachID`
and `ActionCount` only when a loaded record has a non-empty `EMachID` —
then save, demoting a save failure to a warning. -/
def regenerateReMachID (env : Env) (fs : FsState) (salt : String)
    (cache : Option CachedMachineIDs) (w0 : List String) :
    Except MachErr (String × Bool) × FsState × List String :=
  match GenerateReMachID env fs salt with
  | (.error e, fs1, w) => (.error e, fs1, w0 ++ w)
  | (.ok remachid, fs1, w) =>
      let newCache : CachedMachineIDs :=
        { reMachID := remachid, eMachID := "", salt := salt, actionCount := 0,
          createdAt := env.nowUnix }
      let newCache :=
        match cache with
        | some c =>
            if c.eMachID ≠ "" then
              { newCache with eMachID := c.eMachID, actionCount := c.actionCount }
            else newCache
        | none => newCache
      match saveCachedIDs env fs1 newCache with
      | (none, fs2) => (.ok (remachid, false), fs2, w0 ++ w)
      | (some msg, fs2) => (.ok (remachid, false), fs2, w0 ++ w ++ [cacheReWarning msg])

/-- `GetOrGenerateReMachID` (machid.go lines 636-672). -/
def GetOrGenerateReMachID (env : Env) (fs : FsState) (salt : String) :
    Except MachErr (String × Bool) × FsState × List String :=
  match env.loadCache with
  | some cache =>
      if cache.reMachID ≠ "" then
        if cache.salt = "" ∨ cache.salt = salt then (.ok (cache.reMachID, true), fs, [])
        else regenerateReMachID env fs salt (some cache) [saltMismatchWarning]
      else regenerateReMachID env fs salt (some cache) []
  | none => regenerateReMachID env fs salt none []

/-- The generation tail of `GetOrGenerateEMachID` (machid.go lines
691-714): generate (no root needed), update the loaded record in place or
build a fresh one, then save, demoting a save failure to a warning. -/
def generateAndCacheEMachID (env : Env) (fs : FsState) (salt : String)
    (cache : Option CachedMachineIDs) :
    Except MachErr (String × Bool) × FsState × List String :=
  match GenerateEMachID env salt with
  | .error e => (.error e, fs, [])
  | .ok emachid =>
      let newCache : CachedMachineIDs :=
        match cache with
        | some c => { c with eMachID := emachid }
        | none =>
            { reMachID := "", eMachID := emachid, salt := salt, actionCount := 0,
              createdAt := env.nowUnix }
      match saveCachedIDs env fs newCache with
      | (none, fs1) => (.ok (emachid, false), fs1, [])
      | (some msg, fs1) => (.ok (emachid, false), fs1, [cacheEWarning msg])

/-- `GetOrGenerateEMachID` (machid.go lines 684-715). -/
def GetOrGenerateEMachID (env : Env) (fs : FsState) (salt : String) :
    Except MachErr (String × Bool) × FsState × List String :=
  match env.loadCache with
  | some cache =>
      if cache.eMachID ≠ "" then (.ok (cache.eMachID, true), fs, [])
      else generateAndCacheEMachID env fs salt (some cache)
  | none => generateAndCacheEMachID env fs salt none

/-! ## Concrete environments for witnesses and counterexamples -/

/-- Does a resolver outcome carry `ErrDmidecodeNotFound`? -/
def errIsDmidecodeNotFound : Except MachErr HWIds → Bool
  | .error .dmidecodeNotFound => true
  | _ => false

/-- The empty starting disk state: no fallback files, no cache record. -/
def fs0 : FsState := { serialFile := none, uuidFile := none, randCtr := 0, savedCache := none }

/-- A concrete environment with no resolvable hardware values: every sysfs
read fails and `dmidecode` is not installed; strict mode off; fallback
provisioning succeeds, drawing the random values "randa" then "randb";
the process is root; no cache exists. -/
def envNoHardware : Env :=
  { euid := 0, sysfs := fun _ => none, dmidecodePresent := false,
    dmidecodeOut := fun _ => none, strictMode := false, mkdirOk := true,
    randHex := fun n => some (if n = 0 then "randa" else "randb"),
    writeOk := fun _ => true, loadCache := none, saveErr := none,
    nowUnix := 1700000000, nowUnixNano := 1700000000000000000 }

/-- The disk state after `envNoHardware` provisions both fallback files. -/
def fsProvisioned : FsState :=
  { serialFile := some "randa", uuidFile := some "randb", randCtr := 2, savedCache := none }

/-- A concrete environment whose sysfs exposes a product serial "S1" and a
product UUID "U1". -/
def envHardware : Env :=
  { envNoHardware with
    sysfs := fun p =>
      if p = productSerialPath then some "S1"
      else if p = productUUIDPath then some "U1" else none }

/-- A concrete environment whose sysfs exposes only a product serial
"S1"; the uuid stays unresolved everywhere. -/
def envSerialOnly : Env :=
  { envNoHardware with
    sysfs := fun p => if p = productSerialPath then some "S1" else none }

/-- A non-root environment holding a cached reconstructable id with an
empty stored salt. -/
def envCachedRe : Env :=
  { envNoHardware with euid := 5, loadCache := some ⟨"cachedRe", "", "", 0, 0⟩ }

/-- Hardware environment with a cached record whose salt "A" is stale and
whose ephemeral id is empty but action counter is 7. -/
def envStaleSalt : Env :=
  { envHardware with loadCache := some ⟨"oldid", "", "A", 7, 11⟩ }

/-- Hardware environment with a stale-salt cached record carrying a
non-empty ephemeral id "E1" and action counter 7. -/
def envStaleSaltE : Env :=
  { envHardware with loadCache := some ⟨"oldid", "E1", "A", 7, 11⟩ }

/-- Hardware environment whose cache save fails with "disk full". -/
def envSaveFail : Env :=
  { envHardware with saveErr := some "disk full" }

/-- A non-root environment holding a cached ephemeral id under the stored
salt "someSalt". -/
def envCachedE : Env :=
  { envNoHardware with euid := 5, loadCache := some ⟨"", "cachedE", "someSalt", 2, 3⟩ }

/-! ## Helper lemmas -/

/-- `getDmidecodeValue` produces no error other than `dmidecodeNotFound`. -/
theorem getDmidecodeValue_snd (env : Env) (k : String) :
    (getDmidecodeValue env k).2 = none ∨
      (getDmidecodeValue env k).2 = some MachErr.dmidecodeNotFound := by
  unfold getDmidecodeValue
  split
  · split <;> simp
  · simp

/-- The dmidecode serial chain always succeeds: a `dmidecodeNotFound` from
the first lookup is explicitly let through, and no other error can arise. -/
theorem dmidecodeSerial_ok (env : Env) :
    dmidecodeSerial env =
      .ok (dmidecodeSerialRest env (getDmidecodeValue env "system-serial-number").1) := by
  rcases getDmidecodeValue_snd env "system-serial-number" with h | h <;>
    simp [dmidecodeSerial, h]

/-- The combined serial resolution never produces an error value. -/
theorem resolvedSerial_never_err (env : Env) (e : MachErr) :
    resolvedSerial env ≠ .error e := by
  unfold resolvedSerial
  split
  · rw [dmidecodeSerial_ok]; simp
  · simp

/-- The only error `createFallbackFile` produces is `fallbackFileCreation`. -/
theorem createFallbackFile_error (env : Env) (fs : FsState) (f : FbFile)
    (e : MachErr) (fs1 : FsState)
    (h : createFallbackFile env fs f = (.error e, fs1)) :
    e = MachErr.fallbackFileCreation := by
  unfold createFallbackFile at h
  split at h
  · simp_all
  · split at h <;> simp_all

/-- The only error `readOrCreateFallbackFile` produces is
`fallbackFileCreation`. -/
theorem readOrCreateFallbackFile_error (env : Env) (fs : FsState) (f : FbFile)
    (e : MachErr) (fs1 : FsState)
    (h : readOrCreateFallbackFile env fs f = (.error e, fs1)) :
    e = MachErr.fallbackFileCreation := by
  unfold readOrCreateFallbackFile at h
  split at h
  · split at h
    · simp_all
    · exact createFallbackFile_error env fs f e fs1 h
  · exact createFallbackFile_error env fs f e fs1 h

/-- The only error `ensureFallbackFiles` produces is
`fallbackFileCreation`. -/
theorem ensureFallbackFiles_error (env : Env) (fs : FsState)
    (e : MachErr) (fs1 : FsState)
    (h : ensureFallbackFiles env fs = (.error e, fs1)) :
    e = MachErr.fallbackFileCreation := by
  unfold ensureFallbackFiles at h
  split at h
  · split at h
    · next heq =>
        simp only [Prod.mk.injEq, Except.error.injEq] at h
        obtain ⟨rfl, rfl⟩ := h
        exact readOrCreateFallbackFile_error _ _ _ _ _ heq
    · split at h
      · next heq =>
          simp only [Prod.mk.injEq, Except.error.injEq] at h
          obtain ⟨rfl, rfl⟩ := h
          exact readOrCreateFallbackFile_error _ _ _ _ _ heq
      · simp_all
  · simp_all

/-- Reading back the file just written. -/
theorem readFb_writeFb_self (fs : FsState) (f : FbFile) (v : String) :
    readFb (writeFb fs f v) f = some v := by
  cases f <;> rfl

/-- `readFb` ignores the random counter. -/
theorem readFb_randCtr (fs : FsState) (f : FbFile) (n : Nat) :
    readFb { fs with randCtr := n } f = readFb fs f := by
  cases f <;> rfl

/-- Creating a file only changes that file (and the counter). -/
theorem createFallbackFile_uuid_serialFile (env : Env) (fs : FsState) :
    ((createFallbackFile env fs .uuidF).2).serialFile = fs.serialFile := by
  unfold createFallbackFile
  split
  · rfl
  · split <;> rfl

/-- The uuid-file step leaves the serial file untouched. -/
theorem readOrCreate_uuid_serialFile (env : Env) (fs : FsState) :
    ((readOrCreateFallbackFile env fs .uuidF).2).serialFile = fs.serialFile := by
  unfold readOrCreateFallbackFile
  split
  · split
    · rfl
    · exact createFallbackFile_uuid_serialFile env fs
  · exact createFallbackFile_uuid_serialFile env fs

/-- A successful `readOrCreateFallbackFile` leaves on disk a content whose
trim is exactly the returned non-empty value (the random source is assumed
to produce trim-invariant, non-empty strings, which hex encodings are). -/
theorem readOrCreate_ok_shape (env : Env) (fs : FsState) (f : FbFile)
    (v : String) (fs1 : FsState)
    (hrand : ∀ n r, env.randHex n = some r → trimSpace r = r ∧ r ≠ "")
    (h : readOrCreateFallbackFile env fs f = (.ok v, fs1)) :
    ∃ d, readFb fs1 f = some d ∧ trimSpace d = v ∧ v ≠ "" := by
  unfold readOrCreateFallbackFile at h
  have hcreate : ∀ (h : createFallbackFile env fs f = (.ok v, fs1)),
      ∃ d, readFb fs1 f = some d ∧ trimSpace d = v ∧ v ≠ "" := by
    intro hc
    unfold createFallbackFile at hc
    split at hc
    · simp_all
    · next r hr =>
        split at hc
        · simp only [Prod.mk.injEq, Except.ok.injEq] at hc
          obtain ⟨hv, hfs⟩ := hc
          subst hv
          subst hfs
          refine ⟨r, ?_, (hrand _ _ hr).1, (hrand _ _ hr).2⟩
          rw [readFb_randCtr, readFb_writeFb_self]
        · simp_all
  split at h
  · split at h
    · next hne =>
        simp only [Prod.mk.injEq, Except.ok.injEq] at h
        obtain ⟨rfl, rfl⟩ := h
        next d hd => exact ⟨d, hd, rfl, hne⟩
    · exact hcreate h
  · exact hcreate h

/-- Re-reading an already-provisioned file returns its value unchanged and
leaves the state untouched. -/
theorem readOrCreate_stable (env : Env) (fs : FsState) (f : FbFile) (v : String)
    (hd : ∃ d, readFb fs f = some d ∧ trimSpace d = v ∧ v ≠ "") :
    readOrCreateFallbackFile env fs f = (.ok v, fs) := by
  obtain ⟨d, hread, htrim, hne⟩ := hd
  unfold readOrCreateFallbackFile
  rw [hread]
  simp [htrim, hne]

/-- UTF-8 encoding distributes over string append. -/
theorem strBytes_append (a b : String) :
    strBytes (a ++ b) = strBytes a ++ strBytes b := by
  simp [strBytes, String.data_append, List.flatMap_append]

/-- Folding append over a string list accumulates the byte streams. -/
theorem strBytes_foldl (l : List String) (acc : String) :
    strBytes (l.foldl (· ++ ·) acc) = strBytes acc ++ l.flatMap strBytes := by
  induction l generalizing acc with
  | nil => simp
  | cons x t ih => simp [List.foldl_cons, ih, strBytes_append, List.append_assoc]

/-- Feeding the inputs one by one to the hasher is the same as hashing the
concatenation: `hashData` only sees the joined byte stream. -/
theorem hashData_eq_join (data : List String) :
    hashData data = sha256Hex (strBytes (String.join data)) := by
  have hjoin : String.join data = data.foldl (· ++ ·) "" := rfl
  rw [hashData, hjoin, strBytes_foldl]
  rfl

/-- `sha256Hex` always renders exactly 64 characters. -/
theorem sha256Hex_length (msg : List Nat) : (sha256Hex msg).length = 64 := by
  have h8 : ∀ w : Nat, (hexDigits8 w).length = 8 := by
    intro w
    simp [hexDigits8]
  simp [sha256Hex, String.length, h8]

/-- The SHA-256 model matches the official test vector for "abc". -/
theorem sha256Hex_abc_vector : sha256Hex (strBytes "abc") =
    "ba7816bf8f01cfea414140de5dae2223b00361a396177a9cb410ff61f20015ad" := by decide

/-- The SHA-256 model matches the official test vector for the empty
message. -/
theorem sha256Hex_empty_vector : sha256Hex [] =
    "e3b0c44298fc1c149afbf4c8996fb92427ae41e4649b934ca495991b7852b855" := by decide

/-! ## Claim theorems -/

/-- C1: whenever `getHardwareIdentifiers` returns without error with
`usedFallback = true`, the returned serial and uuid are exactly the two
tokens `ensureFallbackFiles` yields on the same starting state (and the
final state is the provisioner's); a mix of one hardware value with one
fallback token under `usedFallback = true` is impossible. -/
theorem fallback_exclusivity (env : Env) (fs : FsState) (s u : String)
    (fs1 : FsState) (w : List String)
    (h : getHardwareIdentifiers env fs = (.ok ⟨s, u, true⟩, fs1, w)) :
    ensureFallbackFiles env fs = (.ok (s, u), fs1) := by
  unfold getHardwareIdentifiers at h
  split at h
  · simp_all
  · split at h
    · simp_all
    · split at h
      · simp_all
      · split at h
        · simp_all
        · split at h
          · simp_all
          · next heq =>
              simp only [Prod.mk.injEq, Except.ok.injEq, HWIds.mk.injEq] at h
              obtain ⟨⟨hs, hu, -⟩, hfs, -⟩ := h
              subst hs
              subst hu
              subst hfs
              exact heq

/-- C1 witness: in the no-hardware environment the resolver returns the
fallback tokens, and they coincide with the provisioner's output. -/
theorem fallback_exclusivity_witness :
    ensureFallbackFiles envNoHardware fs0 = (.ok ("randa", "randb"), fsProvisioned) :=
  fallback_exclusivity envNoHardware fs0 "randa" "randb" fsProvisioned fallbackWarnings
    (by decide)

/-- C2 counterexample: two distinct ordered input lists with equal
concatenation produce the identical digest, because `hashData` feeds the
hasher the bare concatenation with no separator. -/
theorem hashData_collision :
    hashData ["ab", "c"] = hashData ["a", "bc"] ∧ ["ab", "c"] ≠ ["a", "bc"] := by
  refine ⟨?_, by decide⟩
  rw [hashData_eq_join, hashData_eq_join]
  rfl

/-- C2 (amended): `hashData` is deterministic and always yields a
64-character hex digest, but its output depends only on the concatenation
of the inputs: any two input lists with the same joined string — equal
lists in particular — hash identically, so distinct lists differing only
in how the same text is split across elements do not change the output. -/
theorem hashData_deterministic (data other : List String) :
    (hashData data).length = 64 ∧
      (String.join data = String.join other → hashData data = hashData other) := by
  constructor
  · rw [hashData]
    exact sha256Hex_length _
  · intro h
    rw [hashData_eq_join, hashData_eq_join, h]

/-- C2 witness: a concrete 64-character digest and a concrete pair of
lists with equal concatenation hashing identically. -/
theorem hashData_deterministic_witness :
    (hashData ["ma", "chine"]).length = 64 ∧
      hashData ["ma", "chine"] = hashData ["mach", "ine"] :=
  ⟨(hashData_deterministic ["ma", "chine"] ["mach", "ine"]).1,
   (hashData_deterministic ["ma", "chine"] ["mach", "ine"]).2 (by decide)⟩

/-- C3: when every sysfs candidate and every dmidecode keyword yields an
empty value for both logical fields and strict mode is on, the resolver
fails with `ErrStrictModeNoHardwareID`, the disk state is unchanged (no
fallback file is created) and no warning is emitted. -/
theorem strict_mode_gate (env : Env) (fs : FsState)
    (h1 : readSysfsFile env productSerialPath = "")
    (h2 : readSysfsFile env chassisSerialPath = "")
    (h3 : readSysfsFile env boardSerialPath = "")
    (h4 : readSysfsFile env productUUIDPath = "")
    (h5 : (getDmidecodeValue env "system-serial-number").1 = "")
    (h6 : (getDmidecodeValue env "chassis-serial-number").1 = "")
    (h7 : (getDmidecodeValue env "baseboard-serial-number").1 = "")
    (h8 : (getDmidecodeValue env "system-uuid").1 = "")
    (h9 : env.strictMode = true) :
    getHardwareIdentifiers env fs = (.error .strictModeNoHardwareID, fs, []) := by
  have hs : sysfsSerial env = "" := by simp [sysfsSerial, h1, h2, h3]
  have hu : sysfsUuid env = "" := by simp [sysfsUuid, h4]
  have hrest : dmidecodeSerialRest env "" = "" := by simp [dmidecodeSerialRest, h6, h7]
  have hres : resolvedSerial env = .ok "" := by
    rw [resolvedSerial, if_pos hs, dmidecodeSerial_ok, h5, hrest]
  have hru : resolvedUuid env = "" := by
    rw [resolvedUuid, if_pos hu, h8]
  rw [getHardwareIdentifiers, hres]
  simp [hs, hu, hru, h9]

/-- C3 witness: the concrete no-hardware environment under strict mode. -/
theorem strict_mode_gate_witness :
    getHardwareIdentifiers { envNoHardware with strictMode := true } fs0 =
      (.error .strictModeNoHardwareID, fs0, []) :=
  strict_mode_gate { envNoHardware with strictMode := true } fs0
    rfl rfl rfl rfl rfl rfl rfl rfl rfl

/-- C4 counterexample: with `dmidecode` absent and no value from any
channel for any field, `getHardwareIdentifiers` does not propagate
`ErrDmidecodeNotFound`; it proceeds to fallback provisioning (strict mode
off) or fails with `ErrStrictModeNoHardwareID` (strict mode on). -/
theorem dmidecode_absent_no_propagation :
    envNoHardware.dmidecodePresent = false ∧
    getDmidecodeValue envNoHardware "system-serial-number" =
      ("", some .dmidecodeNotFound) ∧
    getHardwareIdentifiers envNoHardware fs0 =
      (.ok ⟨"randa", "randb", true⟩, fsProvisioned, fallbackWarnings) ∧
    getHardwareIdentifiers { envNoHardware with strictMode := true } fs0 =
      (.error .strictModeNoHardwareID, fs0, []) :=
  ⟨rfl, rfl, by decide, by decide⟩

/-- C4 (amended): `getHardwareIdentifiers` never returns
`ErrDmidecodeNotFound` at all: the serial lookup explicitly filters that
error out and the uuid lookup discards errors, so a missing dmidecode
binary is treated like an empty command channel and resolution proceeds to
the strict-mode check and fallback provisioning. -/
theorem dmidecode_notfound_never_returned (env : Env) (fs : FsState) :
    errIsDmidecodeNotFound (getHardwareIdentifiers env fs).1 = false := by
  unfold getHardwareIdentifiers
  split
  · rfl
  · split
    · next e heq => exact absurd heq (resolvedSerial_never_err env e)
    · split
      · rfl
      · split
        · rfl
        · split
          · next e fs1 heq =>
              have he := ensureFallbackFiles_error env fs e fs1 heq
              subst he
              rfl
          · rfl

/-- C5: once both fields have been attempted through both channels, if at
least one resolved value is non-empty the resolver returns it immediately
with `usedFallback = false`, an unchanged state and no warnings — a
partial result passes through as-is — and the outcome is the same whether
strict mode is on or off. -/
theorem partial_result_no_fallback (env : Env) (fs : FsState) (s : String)
    (hser : resolvedSerial env = .ok s)
    (hne : s ≠ "" ∨ resolvedUuid env ≠ "") :
    getHardwareIdentifiers env fs = (.ok ⟨s, resolvedUuid env, false⟩, fs, []) ∧
    getHardwareIdentifiers { env with strictMode := true } fs =
      (.ok ⟨s, resolvedUuid env, false⟩, fs, []) ∧
    getHardwareIdentifiers { env with strictMode := false } fs =
      (.ok ⟨s, resolvedUuid env, false⟩, fs, []) := by
  have main : ∀ env' : Env, resolvedSerial env' = .ok s →
      (s ≠ "" ∨ resolvedUuid env' ≠ "") →
      getHardwareIdentifiers env' fs = (.ok ⟨s, resolvedUuid env', false⟩, fs, []) := by
    intro env' hser' hne'
    by_cases hS : sysfsSerial env' = ""
    · have hcond : ¬(sysfsSerial env' ≠ "" ∧ sysfsUuid env' ≠ "") := by simp [hS]
      rw [getHardwareIdentifiers, if_neg hcond, hser']
      simp [hne']
    · have hs' : s = sysfsSerial env' := by
        rw [resolvedSerial, if_neg hS] at hser'
        exact (Except.ok.inj hser').symm
      by_cases hU : sysfsUuid env' = ""
      · have hcond : ¬(sysfsSerial env' ≠ "" ∧ sysfsUuid env' ≠ "") := by simp [hU]
        have hne2 : s ≠ "" ∨ resolvedUuid env' ≠ "" := Or.inl (hs' ▸ hS)
        rw [getHardwareIdentifiers, if_neg hcond, hser']
        simp [hne2]
      · have hru : resolvedUuid env' = sysfsUuid env' := by rw [resolvedUuid, if_neg hU]
        rw [getHardwareIdentifiers, if_pos ⟨hS, hU⟩, hs', hru]
  exact ⟨main env hser hne, main _ hser hne, main _ hser hne⟩

/-- C5 witness: a machine exposing only a sysfs product serial returns the
partial pair ("S1", "") with no fallback, under both strict settings. -/
theorem partial_result_no_fallback_witness :
    getHardwareIdentifiers envSerialOnly fs0 =
      (.ok ⟨"S1", resolvedUuid envSerialOnly, false⟩, fs0, []) ∧
    getHardwareIdentifiers { envSerialOnly with strictMode := true } fs0 =
      (.ok ⟨"S1", resolvedUuid envSerialOnly, false⟩, fs0, []) ∧
    getHardwareIdentifiers { envSerialOnly with strictMode := false } fs0 =
      (.ok ⟨"S1", resolvedUuid envSerialOnly, false⟩, fs0, []) :=
  partial_result_no_fallback envSerialOnly fs0 "S1" (by decide) (Or.inl (by decide))

/-- C6: the provisioner is idempotent once provisioned.  Per file: an
existing non-empty stored value is returned unchanged with no write.
Globally: a successful `ensureFallbackFiles` followed by a second call
(no clearing in between) returns byte-identical tokens and the identical
state.  The random source is assumed to produce trim-invariant non-empty
strings, as hex encodings are. -/
theorem fallback_idempotent (env : Env) (fs : FsState)
    (hrand : ∀ n r, env.randHex n = some r → trimSpace r = r ∧ r ≠ "") :
    (∀ f d, readFb fs f = some d → trimSpace d ≠ "" →
        readOrCreateFallbackFile env fs f = (.ok (trimSpace d), fs)) ∧
    (∀ s u fs1, ensureFallbackFiles env fs = (.ok (s, u), fs1) →
        ensureFallbackFiles env fs1 = (.ok (s, u), fs1)) := by
  constructor
  · intro f d hread hne
    exact readOrCreate_stable env fs f (trimSpace d) ⟨d, hread, rfl, hne⟩
  · intro s u fs2 h
    unfold ensureFallbackFiles at h
    split at h
    · next hmk =>
        split at h
        · simp_all
        · next serial fs1 heq1 =>
            split at h
            · simp_all
            · next uuid fs2x heq2 =>
                simp only [Prod.mk.injEq, Except.ok.injEq] at h
                obtain ⟨⟨hs, hu⟩, hfs⟩ := h
                subst hs
                subst hu
                subst hfs
                obtain ⟨d1, hd1, ht1, hn1⟩ :=
                  readOrCreate_ok_shape env fs .serialF serial fs1 hrand heq1
                obtain ⟨d2, hd2, ht2, hn2⟩ :=
                  readOrCreate_ok_shape env fs1 .uuidF uuid fs2x hrand heq2
                have hpres : readFb fs2x .serialF = readFb fs1 .serialF := by
                  have hser := readOrCreate_uuid_serialFile env fs1
                  rw [heq2] at hser
                  exact hser
                have hcall1 : readOrCreateFallbackFile env fs2x .serialF = (.ok serial, fs2x) :=
                  readOrCreate_stable env fs2x .serialF serial
                    ⟨d1, by rw [hpres]; exact hd1, ht1, hn1⟩
                have hcall2 : readOrCreateFallbackFile env fs2x .uuidF = (.ok uuid, fs2x) :=
                  readOrCreate_stable env fs2x .uuidF uuid ⟨d2, hd2, ht2, hn2⟩
                unfold ensureFallbackFiles
                rw [hmk]
                simp [hcall1, hcall2]
    · simp_all

/-- C6 witness: provisioning from the empty state in the concrete
no-hardware environment and calling again returns the same two tokens and
the same state. -/
theorem fallback_idempotent_witness :
    ensureFallbackFiles envNoHardware fsProvisioned =
      (.ok ("randa", "randb"), fsProvisioned) :=
  (fallback_idempotent envNoHardware fs0
    (by
      intro n r h
      simp only [envNoHardware] at h
      injection h with h1
      subst h1
      by_cases hn : n = 0
      · rw [if_pos hn]
        exact ⟨by decide, by decide⟩
      · rw [if_neg hn]
        exact ⟨by decide, by decide⟩)).2
    "randa" "randb" fsProvisioned (by decide)

/-- A successful regeneration path always reports `fromCache = false`. -/
theorem regenerate_snd_false (env : Env) (fs : FsState) (salt : String)
    (cache : Option CachedMachineIDs) (w0 : List String) (r : String × Bool)
    (h : (regenerateReMachID env fs salt cache w0).1 = .ok r) : r.2 = false := by
  simp only [regenerateReMachID] at h
  split at h
  · simp_all
  · split at h <;>
      (simp only [Prod.mk.injEq, Except.ok.injEq] at h; rw [← h])

/-- C7: `GetOrGenerateReMachID` serves the cached reconstructable id with
`fromCache = true`, leaving the state and warnings untouched (no
privileged resolution), exactly when a cache record loads with a non-empty
`reMachID` and a stored salt that is empty or equal to the request salt;
with a non-empty differing stored salt any successful result is freshly
generated (`fromCache = false`). -/
theorem remachid_cache_gate (env : Env) (fs : FsState) (salt : String) :
    (∀ c, env.loadCache = some c → c.reMachID ≠ "" → (c.salt = "" ∨ c.salt = salt) →
        GetOrGenerateReMachID env fs salt = (.ok (c.reMachID, true), fs, [])) ∧
    (∀ r, (GetOrGenerateReMachID env fs salt).1 = .ok r → r.2 = true →
        ∃ c, env.loadCache = some c ∧ c.reMachID ≠ "" ∧ (c.salt = "" ∨ c.salt = salt) ∧
          r.1 = c.reMachID) ∧
    (∀ c r, env.loadCache = some c → c.salt ≠ "" → c.salt ≠ salt →
        (GetOrGenerateReMachID env fs salt).1 = .ok r → r.2 = false) := by
  refine ⟨?_, ?_, ?_⟩
  · intro c hc hre hsalt
    unfold GetOrGenerateReMachID
    rw [hc]
    simp [hre, hsalt]
  · intro r h hr2
    unfold GetOrGenerateReMachID at h
    cases hc : env.loadCache with
    | none =>
        simp only [hc] at h
        have hf := regenerate_snd_false env fs salt none [] r h
        rw [hr2] at hf
        exact absurd hf (by decide)
    | some c =>
        simp only [hc] at h
        by_cases hre : c.reMachID ≠ ""
        · by_cases hsalt : c.salt = "" ∨ c.salt = salt
          · rw [if_pos hre, if_pos hsalt] at h
            simp only [Except.ok.injEq] at h
            exact ⟨c, rfl, hre, hsalt, by rw [← h]⟩
          · rw [if_pos hre, if_neg hsalt] at h
            have hf := regenerate_snd_false env fs salt (some c) [saltMismatchWarning] r h
            rw [hr2] at hf
            exact absurd hf (by decide)
        · rw [if_neg hre] at h
          have hf := regenerate_snd_false env fs salt (some c) [] r h
          rw [hr2] at hf
          exact absurd hf (by decide)
  · intro c r hc hs1 hs2 h
    unfold GetOrGenerateReMachID at h
    simp only [hc] at h
    have hsalt : ¬(c.salt = "" ∨ c.salt = salt) := by simp [hs1, hs2]
    by_cases hre : c.reMachID ≠ ""
    · rw [if_pos hre, if_neg hsalt] at h
      exact regenerate_snd_false env fs salt (some c) [saltMismatchWarning] r h
    · rw [if_neg hre] at h
      exact regenerate_snd_false env fs salt (some c) [] r h

/-- C7 witness: a non-root environment with a cached id under an empty
stored salt serves the cache for an arbitrary request salt. -/
theorem remachid_cache_gate_witness :
    GetOrGenerateReMachID envCachedRe fs0 "anysalt" = (.ok ("cachedRe", true), fs0, []) :=
  (remachid_cache_gate envCachedRe fs0 "anysalt").1 ⟨"cachedRe", "", "", 0, 0⟩ rfl
    (by decide) (Or.inl rfl)

/-- C8 counterexample: with a loaded cache record whose ephemeral id is
empty but whose action counter is 7, a salt-mismatch regeneration persists
a record with action counter 0 — the counter is not preserved. -/
theorem cache_frame_not_preserved :
    Option.map CachedMachineIDs.actionCount envStaleSalt.loadCache = some 7 ∧
    Option.map CachedMachineIDs.actionCount
      ((GetOrGenerateReMachID envStaleSalt fs0 "B").2.1.savedCache) = some 0 :=
  ⟨rfl, rfl⟩

/-- C8 (amended): on a regeneration with a loaded cache record, the
persisted record keeps the loaded ephemeral id and action counter only
when the loaded ephemeral id is non-empty; when it is empty, the persisted
record has an empty ephemeral id and an action counter of 0 — the counter
is not preserved on its own.  Reconstructable id, salt and creation time
are set fresh in all cases. -/
theorem cache_frame_amended (env : Env) (fs : FsState) (salt : String)
    (c : CachedMachineIDs) (id : String) (fs1 : FsState) (w : List String)
    (hc : env.loadCache = some c)
    (hmiss : ¬(c.reMachID ≠ "" ∧ (c.salt = "" ∨ c.salt = salt)))
    (hgen : GenerateReMachID env fs salt = (.ok id, fs1, w))
    (hsave : env.saveErr = none) :
    (GetOrGenerateReMachID env fs salt).2.1.savedCache =
      some { reMachID := id,
             eMachID := if c.eMachID ≠ "" then c.eMachID else "",
             salt := salt,
             actionCount := if c.eMachID ≠ "" then c.actionCount else 0,
             createdAt := env.nowUnix } := by
  have hregen : ∀ w0, (regenerateReMachID env fs salt (some c) w0).2.1.savedCache =
      some { reMachID := id,
             eMachID := if c.eMachID ≠ "" then c.eMachID else "",
             salt := salt,
             actionCount := if c.eMachID ≠ "" then c.actionCount else 0,
             createdAt := env.nowUnix } := by
    intro w0
    simp only [regenerateReMachID, hgen, saveCachedIDs, hsave]
    by_cases he : c.eMachID ≠ "" <;> simp [he]
  unfold GetOrGenerateReMachID
  simp only [hc]
  by_cases hre : c.reMachID ≠ ""
  · have hsalt : ¬(c.salt = "" ∨ c.salt = salt) := fun hs => hmiss ⟨hre, hs⟩
    rw [if_pos hre, if_neg hsalt]
    exact hregen _
  · rw [if_neg hre]
    exact hregen _

/-- C8 witness: with a stale salt and a loaded record carrying ephemeral
id "E1" and counter 7, the persisted record keeps both while updating the
reconstructable id, salt and creation time. -/
theorem cache_frame_amended_witness :
    (GetOrGenerateReMachID envStaleSaltE fs0 "B").2.1.savedCache =
      some { reMachID := hashData ["S1", "U1", "B"], eMachID := "E1",
             salt := "B", actionCount := 7, createdAt := 1700000000 } := by
  have h := cache_frame_amended envStaleSaltE fs0 "B" ⟨"oldid", "E1", "A", 7, 11⟩
    (hashData ["S1", "U1", "B"]) fs0 [] rfl (by decide) rfl rfl
  simpa using h

/-- C9: when a fresh id is computed but persisting it fails, the id is
still returned with a nil error and `fromCache = false`; the failure
surfaces only as a warning through the configured sink — stated for the
regeneration tail of `GetOrGenerateReMachID` and the generation tail of
`GetOrGenerateEMachID` under every loaded-cache state, and for both public
functions when no cache record loads. -/
theorem save_failure_nonfatal (env : Env) (fs : FsState) (salt msg : String)
    (hsave : env.saveErr = some msg) :
    (∀ cache w0 id fs1 w, GenerateReMachID env fs salt = (.ok id, fs1, w) →
        regenerateReMachID env fs salt cache w0 =
          (.ok (id, false), fs1, w0 ++ w ++ [cacheReWarning msg])) ∧
    (∀ cache id, GenerateEMachID env salt = .ok id →
        generateAndCacheEMachID env fs salt cache =
          (.ok (id, false), fs, [cacheEWarning msg])) ∧
    (∀ id fs1 w, env.loadCache = none →
        GenerateReMachID env fs salt = (.ok id, fs1, w) →
        GetOrGenerateReMachID env fs salt =
          (.ok (id, false), fs1, w ++ [cacheReWarning msg])) ∧
    (∀ id, env.loadCache = none → GenerateEMachID env salt = .ok id →
        GetOrGenerateEMachID env fs salt = (.ok (id, false), fs, [cacheEWarning msg])) := by
  have hA : ∀ cache w0 id fs1 w, GenerateReMachID env fs salt = (.ok id, fs1, w) →
      regenerateReMachID env fs salt cache w0 =
        (.ok (id, false), fs1, w0 ++ w ++ [cacheReWarning msg]) := by
    intro cache w0 id fs1 w hgen
    simp only [regenerateReMachID, hgen, saveCachedIDs, hsave]
  have hB : ∀ cache id, GenerateEMachID env salt = .ok id →
      generateAndCacheEMachID env fs salt cache =
        (.ok (id, false), fs, [cacheEWarning msg]) := by
    intro cache id hgen
    simp only [generateAndCacheEMachID, hgen, saveCachedIDs, hsave]
  refine ⟨hA, hB, ?_, ?_⟩
  · intro id fs1 w hload hgen
    unfold GetOrGenerateReMachID
    simp only [hload]
    simpa using hA none [] id fs1 w hgen
  · intro id hload hgen
    unfold GetOrGenerateEMachID
    simp only [hload]
    exact hB none id hgen

/-- C9 witness: with hardware resolvable, no loadable cache and a failing
save, the freshly generated id comes back with a nil error and the
warning carries the save error message. -/
theorem save_failure_nonfatal_witness :
    GetOrGenerateReMachID envSaveFail fs0 "s" =
      (.ok (hashData ["S1", "U1", "s"], false), fs0, [cacheReWarning "disk full"]) :=
  (save_failure_nonfatal envSaveFail fs0 "s" "disk full" rfl).2.2.1
    (hashData ["S1", "U1", "s"]) fs0 [] rfl rfl

/-- C10: whenever a cache record loads with a non-empty ephemeral id,
`GetOrGenerateEMachID` returns it with `fromCache = true` for every
request salt — no salt comparison happens, a differing or even empty salt
never forces regeneration — although fresh generation with an empty salt
would fail with `ErrEmptySalt`. -/
theorem emachid_cache_ignores_salt (env : Env) (fs : FsState) (salt : String)
    (c : CachedMachineIDs) (hc : env.loadCache = some c) (he : c.eMachID ≠ "") :
    GetOrGenerateEMachID env fs salt = (.ok (c.eMachID, true), fs, []) ∧
      GenerateEMachID env "" = .error .emptySalt := by
  constructor
  · unfold GetOrGenerateEMachID
    simp only [hc]
    simp [he]
  · rfl

/-- C10 witness: a cached ephemeral id under stored salt "someSalt" is
served even for the empty request salt, which fresh generation would
reject. -/
theorem emachid_cache_ignores_salt_witness :
    GetOrGenerateEMachID envCachedE fs0 "" = (.ok ("cachedE", true), fs0, []) ∧
      GenerateEMachID envCachedE "" = .error .emptySalt :=
  emachid_cache_ignores_salt envCachedE fs0 "" ⟨"", "cachedE", "someSalt", 2, 3⟩ rfl
    (by decide)

end Machid
